import Mathlib

/-!
Shallow embedding of the batch orchestration pipeline of the LinkedIn
profile analyzer (`src/main.py`): the CSV batch parser, the per-item
processing loop of `process_csv_batch`, and the artifact computations of
`save_batch_results`.

External collaborators (the Playwright scraper, the Gemini summarizer,
the clock) are modelled as an explicit environment: for each item the
environment says whether each fallible call returns normally or raises a
Python exception with a given message.  Side effects relevant to the
claims (navigation, delays, session close) are recorded in an event
trace.
-/

namespace LinkedInBatch

/-- Result of one fallible external call: a normal return, or a raised
Python exception carrying its `str(e)` message. -/
inductive StepResult (α : Type) where
  | ok (val : α)
  | exn (msg : String)
  deriving DecidableEq, Repr

/-- Extracted profile attributes, as the dict returned by
`scraper.scrape_profile`.  Dict keys that may be absent are `Option`s.
A falsy (empty / `None`) scrape return is modelled at the call site as
`Option ProfileData = none`; a `some` value is a truthy, non-empty dict,
which may still lack the `name` key. -/
structure ProfileData where
  name : Option String
  headline : Option String := none
  about : Option String := none
  experience : List (String × String) := []
  skills : List String := []
  education : List String := []
  deriving DecidableEq, Repr

/-- Dict returned by `analyze_profile`: generated text under `result`,
optional `error` marker.  A falsy return is `Option AnalysisResult = none`
at the call site. -/
structure AnalysisResult where
  result : Option String
  error : Option String := none
  deriving DecidableEq, Repr

/-- Python truthiness of an optional string: present and non-empty. -/
def optTruthy : Option String → Bool
  | none => false
  | some s => s != ""

/-- The condition `not analysis_result or analysis_result.get('error')`
of `main.py` line 223. -/
def analysisFalsy : Option AnalysisResult → Bool
  | none => true
  | some a => optTruthy a.error

/-- Environment for one item: what the external world does on each of the
three fallible calls (`scraper.page.goto`, `scraper.scrape_profile`,
`analyze_profile`). -/
structure ItemEnv where
  goto : StepResult Unit
  scrape : StepResult (Option ProfileData)
  analyze : StepResult (Option AnalysisResult)

/-- ASCII whitespace stripped by Python `str.strip()`. -/
def isSpaceChar (c : Char) : Bool :=
  c == ' ' || c == '\t' || c == '\n' || c == '\r'

/-- Models Python `str.strip()` (for the ASCII whitespace characters). -/
def stripStr (s : String) : String :=
  ⟨((s.data.dropWhile isSpaceChar).reverse.dropWhile isSpaceChar).reverse⟩

/-- Does `pat` occur as a contiguous run inside the character list? -/
def charsContain (pat : List Char) : List Char → Bool
  | [] => pat.isEmpty
  | c :: t => pat.isPrefixOf (c :: t) || charsContain pat t

/-- Models the Python substring test `pat in s`. -/
def strContains (s pat : String) : Bool :=
  charsContain pat.data s.data

/-- Batch-level errors raised by `process_csv_batch` before any browser
work: missing URL column (`ValueError` listing the columns found), or no
valid URLs after filtering (`ValueError`). -/
inductive BatchError where
  | schemaError (found : List String)
  | emptyBatch
  deriving DecidableEq, Repr

/-- A parsed CSV as seen through `csv.DictReader`: the header field
names, and each row as an association list from field name to cell. -/
structure CsvData where
  fieldnames : List String
  rows : List (List (String × String))
  deriving DecidableEq, Repr

/-- `row.get(col, '')` on a DictReader row. -/
def rowGet (row : List (String × String)) (col : String) : String :=
  match row.find? (fun kv => kv.fst == col) with
  | some kv => kv.snd
  | none => ""

/-- One row of the URL-collection loop (`main.py` lines 175-178):
strip the designated cell, keep it only if truthy and containing
`linkedin.com/in/`. -/
def extractUrl (col : String) (row : List (String × String)) : Option String :=
  if stripStr (rowGet row col) != "" &&
      strContains (stripStr (rowGet row col)) "linkedin.com/in/" then
    some (stripStr (rowGet row col))
  else none

/-- The batch input parsing phase of `process_csv_batch`
(`main.py` lines 164-183): validate the column, filter rows, fail on an
empty result. -/
def parseUrls (col : String) (csv : CsvData) : Except BatchError (List String) :=
  if csv.fieldnames.contains col then
    if (csv.rows.filterMap (extractUrl col)).isEmpty then .error .emptyBatch
    else .ok (csv.rows.filterMap (extractUrl col))
  else .error (.schemaError csv.fieldnames)

/-- A successful item record appended to `results` (`main.py` line 234);
the wall-clock timestamp is not modelled. -/
structure SuccessRec where
  url : String
  profile_data : ProfileData
  analysis_result : AnalysisResult
  index : Nat
  deriving DecidableEq, Repr

/-- A failure record appended to `errors`. -/
structure ErrorRec where
  url : String
  error : String
  index : Nat
  deriving DecidableEq, Repr

/-- One batch item outcome: the record appended to `results` or to
`errors` during the loop iteration for that item. -/
inductive Outcome where
  | success (r : SuccessRec)
  | failure (e : ErrorRec)
  deriving DecidableEq, Repr

/-- Observable side effects of the batch run, in order. -/
inductive Event where
  | loginAttempt
  | nav (url : String)
  | delay (lo hi : Nat)
  | scrapeCall (url : String)
  | analyzeCall
  | close
  deriving DecidableEq, Repr

/-- Reason string for a caught per-item exception (`main.py` line 249). -/
def exnReason (url msg : String) : String :=
  "Error processing " ++ url ++ ": " ++ msg

/-- Reason string for a falsy scrape return (`main.py` line 211). -/
def scrapeFailReason (url : String) : String :=
  "Failed to scrape profile: " ++ url

/-- Reason string for a falsy/errored analysis return (`main.py` line 224). -/
def analysisFailReason (url : String) : String :=
  "Failed to generate analysis for: " ++ url

/-- One iteration of the batch loop body (`main.py` lines 199-255):
navigate, pause 2-4, scrape, analyze, record the outcome, and pause 3-6
after a success.  Any exception raised by a step is caught by the
per-item `except Exception` handler and turned into a failure record. -/
def processItem (env : ItemEnv) (i : Nat) (url : String) : Outcome × List Event :=
  match env.goto with
  | .exn msg => (.failure ⟨url, exnReason url msg, i⟩, [.nav url])
  | .ok _ =>
    match env.scrape with
    | .exn msg =>
        (.failure ⟨url, exnReason url msg, i⟩,
         [.nav url, .delay 2 4, .scrapeCall url])
    | .ok none =>
        (.failure ⟨url, scrapeFailReason url, i⟩,
         [.nav url, .delay 2 4, .scrapeCall url])
    | .ok (some pd) =>
      match env.analyze with
      | .exn msg =>
          (.failure ⟨url, exnReason url msg, i⟩,
           [.nav url, .delay 2 4, .scrapeCall url, .analyzeCall])
      | .ok aOpt =>
        if analysisFalsy aOpt then
          (.failure ⟨url, analysisFailReason url, i⟩,
           [.nav url, .delay 2 4, .scrapeCall url, .analyzeCall])
        else
          (.success ⟨url, pd, aOpt.getD ⟨none, none⟩, i⟩,
           [.nav url, .delay 2 4, .scrapeCall url, .analyzeCall, .delay 3 6])

/-- The `for i, url in enumerate(urls, 1)` loop: each item yields one
outcome and its events; `i` is the 1-based ordinal of the first item. -/
def batchLoop (world : Nat → ItemEnv) : Nat → List String → List Outcome × List Event
  | _, [] => ([], [])
  | i, u :: rest =>
      ((processItem (world i) i u).fst :: (batchLoop world (i + 1) rest).fst,
       (processItem (world i) i u).snd ++ (batchLoop world (i + 1) rest).snd)

/-- The synthetic record returned when login fails (`main.py` line 194). -/
def loginFailedOutcome : Outcome :=
  .failure ⟨"login_failed", "Failed to login to LinkedIn", 0⟩

/-- The batch run after the scraper instance is created (`main.py`
lines 189-259): log in once; on failure return only the synthetic
record; otherwise run the loop; the `finally` closes the session on
every path. -/
def runBatch (login : Bool) (world : Nat → ItemEnv) (urls : List String) :
    List Outcome × List Event :=
  if login then
    ((batchLoop world 1 urls).fst,
     .loginAttempt :: ((batchLoop world 1 urls).snd ++ [.close]))
  else
    ([loginFailedOutcome], [.loginAttempt, .close])

/-- `process_csv_batch(csv_file, url_column, analysis_mode)`: parse the
CSV, then (with the session acquired) run the batch.  The analysis mode
only parametrizes the external summarizer, which the environment already
abstracts, so it does not appear. -/
def process_csv_batch (col : String) (csv : CsvData) (login : Bool)
    (world : Nat → ItemEnv) : Except BatchError (List Outcome × List Event) :=
  (parseUrls col csv).map (fun urls => runBatch login world urls)

/-- The `results` list: successes in processing order. -/
def Outcome.toSuccess : Outcome → Option SuccessRec
  | .success r => some r
  | .failure _ => none

/-- The `errors` list: failures in processing order. -/
def Outcome.toFailure : Outcome → Option ErrorRec
  | .success _ => none
  | .failure e => some e

def batchResults (os : List Outcome) : List SuccessRec :=
  os.filterMap Outcome.toSuccess

def batchErrors (os : List Outcome) : List ErrorRec :=
  os.filterMap Outcome.toFailure

/-- Ordinal index carried by an outcome. -/
def Outcome.index : Outcome → Nat
  | .success r => r.index
  | .failure e => e.index

/-- Identifier carried by an outcome. -/
def Outcome.url : Outcome → String
  | .success r => r.url
  | .failure e => e.url

def Outcome.isSuccess : Outcome → Bool
  | .success _ => true
  | .failure _ => false

/-- One row of the errors artifact (`main.py` lines 344-357); the
wall-clock timestamp column is not modelled. -/
structure ErrorRow where
  profile_url : String
  error : String
  index : Nat
  error_type : String
  deriving DecidableEq, Repr

/-- Coarse classification of a failure reason (`main.py` line 349). -/
def errorType (msg : String) : String :=
  if strContains msg "Failed to scrape" then "scraping_error" else "analysis_error"

def mkErrorRow (e : ErrorRec) : ErrorRow :=
  ⟨e.url, e.error, e.index, errorType e.error⟩

/-- The errors artifact: written only `if errors:` (`main.py` line 341),
one row per failure record. -/
def errorsArtifact (errs : List ErrorRec) : Option (List ErrorRow) :=
  if errs.isEmpty then none else some (errs.map mkErrorRow)

/-- Round-half-to-even division, the rounding Python's `:.1f` applies to
the exactly-representable rates arising here. -/
def roundHalfEvenDiv (num den : Nat) : Nat :=
  let q := num / den
  let r := num % den
  if 2 * r > den then q + 1
  else if 2 * r < den then q
  else if q % 2 = 0 then q else q + 1

/-- `f"{(n / tot * 100):.1f}%"` for `tot > 0`, as an exact rational
rounded to one decimal place. -/
def formatRate1 (n tot : Nat) : String :=
  let tenths := roundHalfEvenDiv (n * 1000) tot
  toString (tenths / 10) ++ "." ++ toString (tenths % 10) ++ "%"

/-- The success-rate line of the summary artifact (`main.py` line 368).
`none` models the `ZeroDivisionError` Python raises when
`len(results) + len(errors) == 0`: the expression divides unguarded. -/
def successRateLine (results : List SuccessRec) (errors : List ErrorRec) :
    Option String :=
  if results.length + errors.length = 0 then none
  else some ("Success Rate: " ++ formatRate1 results.length (results.length + errors.length))

/-- The two per-row success flags of the results artifact
(`main.py` lines 314-316). -/
structure ResultRowFlags where
  scraping_success : String
  analysis_success : String
  deriving DecidableEq, Repr

def resultFlags (r : SuccessRec) : ResultRowFlags :=
  ⟨if optTruthy r.profile_data.name then "Yes" else "No",
   if optTruthy r.analysis_result.result then "Yes" else "No"⟩

/-- The artifact contents computed by `save_batch_results` that the
claims concern: the success flags of each results row, the optional
errors artifact, and the summary success-rate line. -/
structure SavedArtifacts where
  resultRows : List ResultRowFlags
  errorRows : Option (List ErrorRow)
  summaryRate : Option String
  deriving DecidableEq, Repr

def save_batch_results (results : List SuccessRec) (errors : List ErrorRec) :
    SavedArtifacts :=
  ⟨results.map resultFlags, errorsArtifact errors, successRateLine results errors⟩

/-! Helper lemmas about the embedding. -/

theorem processItem_fst_index (e : ItemEnv) (i : Nat) (u : String) :
    (processItem e i u).fst.index = i := by
  rcases e with ⟨g, s, a⟩
  cases g with
  | exn m => rfl
  | ok v =>
    cases s with
    | exn m => rfl
    | ok po =>
      cases po with
      | none => rfl
      | some pd =>
        cases a with
        | exn m => rfl
        | ok ao =>
          cases h : analysisFalsy ao <;>
            simp [processItem, Outcome.index, h]

theorem processItem_fst_url (e : ItemEnv) (i : Nat) (u : String) :
    (processItem e i u).fst.url = u := by
  rcases e with ⟨g, s, a⟩
  cases g with
  | exn m => rfl
  | ok v =>
    cases s with
    | exn m => rfl
    | ok po =>
      cases po with
      | none => rfl
      | some pd =>
        cases a with
        | exn m => rfl
        | ok ao =>
          cases h : analysisFalsy ao <;>
            simp [processItem, Outcome.url, h]

theorem processItem_snd_no_close (e : ItemEnv) (i : Nat) (u : String) :
    Event.close ∉ (processItem e i u).snd := by
  rcases e with ⟨g, s, a⟩
  cases g with
  | exn m => simp [processItem]
  | ok v =>
    cases s with
    | exn m => simp [processItem]
    | ok po =>
      cases po with
      | none => simp [processItem]
      | some pd =>
        cases a with
        | exn m => simp [processItem]
        | ok ao =>
          cases h : analysisFalsy ao <;> simp [processItem, h]

theorem batchLoop_fst_length (world : Nat → ItemEnv) (urls : List String) (i : Nat) :
    (batchLoop world i urls).fst.length = urls.length := by
  induction urls generalizing i with
  | nil => rfl
  | cons u rest ih => simp [batchLoop, ih]

theorem batchLoop_fst_getElem? (world : Nat → ItemEnv) (urls : List String) (i k : Nat) :
    ((batchLoop world i urls).fst)[k]? =
      (urls[k]?).map (fun u => (processItem (world (i + k)) (i + k) u).fst) := by
  induction urls generalizing i k with
  | nil => simp [batchLoop]
  | cons u rest ih =>
    cases k with
    | zero => simp [batchLoop]
    | succ m =>
      have h : i + (m + 1) = (i + 1) + m := by omega
      simp only [batchLoop, List.getElem?_cons_succ, h]
      exact ih (i + 1) m

theorem batchLoop_snd_no_close (world : Nat → ItemEnv) (urls : List String) (i : Nat) :
    Event.close ∉ (batchLoop world i urls).snd := by
  induction urls generalizing i with
  | nil => simp [batchLoop]
  | cons u rest ih =>
    simp only [batchLoop, List.mem_append]
    rintro (h | h)
    · exact processItem_snd_no_close (world i) i u h
    · exact ih (i + 1) h

theorem parseUrls_ok_iff (col : String) (csv : CsvData) (urls : List String) :
    parseUrls col csv = .ok urls ↔
      csv.fieldnames.contains col = true ∧
      urls = csv.rows.filterMap (extractUrl col) ∧ urls ≠ [] := by
  unfold parseUrls
  by_cases hc : csv.fieldnames.contains col
  · rw [if_pos hc]
    by_cases he : (csv.rows.filterMap (extractUrl col)).isEmpty
    · rw [if_pos he]
      constructor
      · intro h; cases h
      · rintro ⟨-, h1, h2⟩
        exfalso
        apply h2
        rw [h1]
        exact List.isEmpty_iff.mp he
    · rw [if_neg he]
      constructor
      · intro h
        injection h with h1
        refine ⟨hc, h1.symm, ?_⟩
        intro hnil
        apply he
        rw [h1, hnil]
        rfl
      · rintro ⟨-, h1, -⟩
        rw [h1]
  · rw [if_neg hc]
    constructor
    · intro h; cases h
    · rintro ⟨h1, -, -⟩
      exact absurd h1 hc

theorem results_errors_partition (os : List Outcome) :
    (batchResults os).length + (batchErrors os).length = os.length := by
  induction os with
  | nil => rfl
  | cons o t ih =>
    cases o <;>
      simp [batchResults, batchErrors, List.filterMap_cons,
        Outcome.toSuccess, Outcome.toFailure] <;>
      simp [batchResults, batchErrors] at ih <;> omega

theorem charsContain_of_isPrefixOf (pat l : List Char) (h : pat.isPrefixOf l = true) :
    charsContain pat l = true := by
  cases l with
  | nil =>
    cases pat with
    | nil => rfl
    | cons c t => simp [List.isPrefixOf] at h
  | cons c t => simp [charsContain, h]

/-! Concrete environments used to exercise the theorems. -/

/-- An item environment where every external call succeeds. -/
def okEnv : ItemEnv :=
  ⟨.ok (), .ok (some ⟨some "Alice", some "Engineer", none, [], [], []⟩),
   .ok (some ⟨some "generated text", none⟩)⟩

def worldOk : Nat → ItemEnv := fun _ => okEnv

/-- A world where the second item raises during navigation and every
other item succeeds. -/
def worldMid : Nat → ItemEnv := fun i =>
  if i = 2 then ⟨.exn "boom", .ok none, .ok none⟩ else okEnv

/-- A small CSV with two valid profile URLs. -/
def csvTwo : CsvData :=
  ⟨["profile_url"],
   [[("profile_url", "https://linkedin.com/in/a")],
    [("profile_url", "https://linkedin.com/in/b")]]⟩

/-! Claim theorems. -/

/-- Claim C1: for every non-empty sequence of valid profile identifiers
(any URL list produced by the parser), when authentication succeeds the
batch run yields exactly one outcome per identifier: the identifier list
is non-empty, the outcome count (and the count of success records plus
failure records) equals the identifier count, and the k-th outcome
carries ordinal index k+1 and the k-th input identifier — no identifier
is reordered, dropped, or deduplicated. -/
theorem c1_outcomes_complete_ordered (col : String) (csv : CsvData)
    (world : Nat → ItemEnv) (urls : List String)
    (h : parseUrls col csv = .ok urls) :
    urls ≠ [] ∧
    (runBatch true world urls).fst.length = urls.length ∧
    (batchResults (runBatch true world urls).fst).length
        + (batchErrors (runBatch true world urls).fst).length = urls.length ∧
    (∀ k : Nat, (((runBatch true world urls).fst)[k]?).map Outcome.index
        = (urls[k]?).map (fun _ => k + 1)) ∧
    (∀ k : Nat, (((runBatch true world urls).fst)[k]?).map Outcome.url
        = urls[k]?) := by
  have hne : urls ≠ [] := ((parseUrls_ok_iff col csv urls).mp h).2.2
  have hrun : (runBatch true world urls).fst = (batchLoop world 1 urls).fst := rfl
  have hlen : (runBatch true world urls).fst.length = urls.length := by
    rw [hrun, batchLoop_fst_length]
  refine ⟨hne, hlen, ?_, ?_, ?_⟩
  · rw [results_errors_partition, hlen]
  · intro k
    rw [hrun, batchLoop_fst_getElem?]
    cases hg : urls[k]? <;>
      simp [hg, processItem_fst_index, Nat.add_comm]
  · intro k
    rw [hrun, batchLoop_fst_getElem?]
    cases hg : urls[k]? <;> simp [hg, processItem_fst_url]

/-- Claim C1 witness: the two-URL batch with an all-success world has
two outcomes, the second carrying index 2 and the second URL. -/
theorem c1_outcomes_complete_ordered_witness :
    (runBatch true worldOk
        ["https://linkedin.com/in/a", "https://linkedin.com/in/b"]).fst.length = 2 ∧
    (((runBatch true worldOk
        ["https://linkedin.com/in/a", "https://linkedin.com/in/b"]).fst)[1]?).map
        Outcome.index = some 2 ∧
    (((runBatch true worldOk
        ["https://linkedin.com/in/a", "https://linkedin.com/in/b"]).fst)[1]?).map
        Outcome.url = some "https://linkedin.com/in/b" := by
  have h := c1_outcomes_complete_ordered "profile_url" csvTwo worldOk
    ["https://linkedin.com/in/a", "https://linkedin.com/in/b"] (by rfl)
  exact ⟨h.2.1.trans rfl, (h.2.2.2.1 1).trans rfl, (h.2.2.2.2 1).trans rfl⟩

/-- Claim C2: with authentication succeeded, the k-th outcome of the
batch is exactly the outcome of processing the k-th identifier in its
own environment — so every item yields an outcome (no per-item exception
propagates out of the loop) and a failure on one item cannot affect any
other item's outcome — and every exception raised by navigation,
extraction, or summarization for an item is converted into a Failure
record carrying the identifier, the human-readable reason
`Error processing {url}: {message}`, and the item's ordinal index. -/
theorem c2_failure_isolation (world : Nat → ItemEnv) (urls : List String) :
    (runBatch true world urls).fst.length = urls.length ∧
    (∀ k : Nat, ((runBatch true world urls).fst)[k]?
        = (urls[k]?).map (fun u => (processItem (world (k + 1)) (k + 1) u).fst)) ∧
    (∀ e : ItemEnv, ∀ i : Nat, ∀ u msg : String,
      e.goto = .exn msg →
        (processItem e i u).fst = .failure ⟨u, exnReason u msg, i⟩) ∧
    (∀ e : ItemEnv, ∀ i : Nat, ∀ u msg : String,
      e.goto = .ok () → e.scrape = .exn msg →
        (processItem e i u).fst = .failure ⟨u, exnReason u msg, i⟩) ∧
    (∀ e : ItemEnv, ∀ i : Nat, ∀ u msg : String, ∀ pd : ProfileData,
      e.goto = .ok () → e.scrape = .ok (some pd) → e.analyze = .exn msg →
        (processItem e i u).fst = .failure ⟨u, exnReason u msg, i⟩) := by
  refine ⟨by rw [show (runBatch true world urls).fst = (batchLoop world 1 urls).fst
      from rfl, batchLoop_fst_length], ?_, ?_, ?_, ?_⟩
  · intro k
    rw [show (runBatch true world urls).fst = (batchLoop world 1 urls).fst from rfl,
      batchLoop_fst_getElem?]
    cases hg : urls[k]? <;> simp [hg, Nat.add_comm]
  · rintro ⟨g, s, a⟩ i u msg hg
    cases hg
    rfl
  · rintro ⟨g, s, a⟩ i u msg hg hs
    cases hg
    cases hs
    rfl
  · rintro ⟨g, s, a⟩ i u msg pd hg hs ha
    cases hg
    cases hs
    cases ha
    rfl

/-- Claim C2 witness: in a three-item batch whose middle item raises
during navigation, the middle outcome is the expected Failure record
and the third item still yields a Success outcome. -/
theorem c2_failure_isolation_witness :
    ((runBatch true worldMid ["a", "b", "c"]).fst)[1]?
      = some (.failure ⟨"b", exnReason "b" "boom", 2⟩) ∧
    (((runBatch true worldMid ["a", "b", "c"]).fst)[2]?).map Outcome.isSuccess
      = some true ∧
    (processItem ⟨.exn "boom", .ok none, .ok none⟩ 2 "b").fst
      = .failure ⟨"b", exnReason "b" "boom", 2⟩ := by
  have h := c2_failure_isolation worldMid ["a", "b", "c"]
  refine ⟨(h.2.1 1).trans rfl, ?_, ?_⟩
  · rw [h.2.1 2]
    rfl
  · exact h.2.2.1 ⟨.exn "boom", .ok none, .ok none⟩ 2 "b" "boom" rfl

/-- Claim C3: if authentication fails the batch is aborted immediately:
the outcome list is exactly the single synthetic Failure record tagged
`login_failed` with index 0 (so no Success outcome exists), and the
event trace is just the login attempt followed by the session close —
no navigation, no scrape, no pause is attempted for any identifier. -/
theorem c3_login_failure_aborts (world : Nat → ItemEnv) (urls : List String) :
    (runBatch false world urls).fst = [loginFailedOutcome] ∧
    loginFailedOutcome = .failure ⟨"login_failed", "Failed to login to LinkedIn", 0⟩ ∧
    batchResults (runBatch false world urls).fst = [] ∧
    (runBatch false world urls).snd = [.loginAttempt, .close] ∧
    (∀ u : String, Event.nav u ∉ (runBatch false world urls).snd) ∧
    (∀ u : String, Event.scrapeCall u ∉ (runBatch false world urls).snd) := by
  refine ⟨rfl, rfl, rfl, rfl, ?_, ?_⟩ <;> intro u <;> simp [runBatch]

/-- Claim C4: for every batch run in which the session handle was
acquired — every run of `runBatch`, which models the region guarded by
the `try/finally` around the batch — the session close operation appears
exactly once in the event trace, whether login fails or the loop runs
to completion over any environment (including ones whose items raise). -/
theorem c4_close_exactly_once (login : Bool) (world : Nat → ItemEnv)
    (urls : List String) :
    ((runBatch login world urls).snd).count Event.close = 1 := by
  cases login with
  | false => rfl
  | true =>
    simp only [runBatch, if_pos]
    rw [List.count_cons, List.count_append]
    have h0 : ((batchLoop world 1 urls).snd).count Event.close = 0 :=
      List.count_eq_zero.mpr (batchLoop_snd_no_close world urls 1)
    rw [h0]
    rfl

/-- Claim C5: the batch input parser fails with a schema error that
enumerates the columns actually found when the named column is absent;
a row whose designated cell strips to empty or does not contain the
profile-locator pattern contributes nothing and its removal leaves the
parse result unchanged (silently skipped, no error); the parse fails
with the empty-batch error exactly when zero valid identifiers remain;
and on the spec's example rows only `https://linkedin.com/in/a`
survives. -/
theorem c5_parser_contract (col : String) (fn : List String)
    (rows rows₁ rows₂ : List (List (String × String)))
    (row : List (String × String)) :
    (¬ fn.contains col = true →
      parseUrls col ⟨fn, rows⟩ = .error (.schemaError fn)) ∧
    ((stripStr (rowGet row col) = "" ∨
        strContains (stripStr (rowGet row col)) "linkedin.com/in/" = false) →
      extractUrl col row = none) ∧
    (extractUrl col row = none →
      parseUrls col ⟨fn, rows₁ ++ row :: rows₂⟩ = parseUrls col ⟨fn, rows₁ ++ rows₂⟩) ∧
    (fn.contains col = true → rows.filterMap (extractUrl col) = [] →
      parseUrls col ⟨fn, rows⟩ = .error .emptyBatch) ∧
    parseUrls "profile_url" ⟨["profile_url"],
      [[("profile_url", "https://linkedin.com/in/a")], [("profile_url", "")],
       [("profile_url", "not-a-url")]]⟩ = .ok ["https://linkedin.com/in/a"] := by
  refine ⟨?_, ?_, ?_, ?_, rfl⟩
  · intro hc
    unfold parseUrls
    rw [if_neg hc]
  · intro h
    rcases h with h | h <;> simp [extractUrl, h]
  · intro h
    have hfm : (rows₁ ++ row :: rows₂).filterMap (extractUrl col)
        = (rows₁ ++ rows₂).filterMap (extractUrl col) := by
      simp [List.filterMap_append, List.filterMap_cons, h]
    unfold parseUrls
    simp only [hfm]
  · intro hc hfm
    unfold parseUrls
    rw [if_pos hc]
    simp only [hfm]
    rfl

/-- Claim C5 witness: the schema error on an absent column enumerates
the found columns, deleting a non-matching row leaves the parse
unchanged, and an all-invalid batch yields the empty-batch error. -/
theorem c5_parser_contract_witness :
    parseUrls "profile_url" ⟨["name"], []⟩ = .error (.schemaError ["name"]) ∧
    parseUrls "profile_url" ⟨["profile_url"],
      [[("profile_url", "https://linkedin.com/in/a")], [("profile_url", "not-a-url")]]⟩
      = parseUrls "profile_url" ⟨["profile_url"],
          [[("profile_url", "https://linkedin.com/in/a")]]⟩ ∧
    parseUrls "profile_url" ⟨["profile_url"], [[("profile_url", "nope")]]⟩
      = .error .emptyBatch := by
  have h1 := c5_parser_contract "profile_url" ["name"] [] [] [] []
  have h2 := c5_parser_contract "profile_url" ["profile_url"] []
    [[("profile_url", "https://linkedin.com/in/a")]] []
    [("profile_url", "not-a-url")]
  have h3 := c5_parser_contract "profile_url" ["profile_url"]
    [[("profile_url", "nope")]] [] [] []
  exact ⟨h1.1 (by decide), h2.2.2.1 (by rfl), h3.2.2.2.1 (by rfl) (by rfl)⟩

/-- Claim C6 counterexample: a truthy extracted record that lacks the
name field is not recorded as a Failure — with analysis succeeding, the
batch records it as a Success outcome, because the code only tests the
record's truthiness (`if not profile_data`), not the presence of a
name. -/
theorem c6_missing_name_counterexample :
    (runBatch true
        (fun _ => ⟨.ok (), .ok (some ⟨none, some "Engineer at X", none, [], [], []⟩),
                   .ok (some ⟨some "generated text", none⟩)⟩)
        ["https://linkedin.com/in/x"]).fst
      = [.success ⟨"https://linkedin.com/in/x",
          ⟨none, some "Engineer at X", none, [], [], []⟩,
          ⟨some "generated text", none⟩, 1⟩] := rfl

/-- Claim C6 as amended: only a falsy (absent or empty) extraction
return is classified as an extraction failure, recorded as a Failure
outcome with reason `Failed to scrape profile: {url}`; a truthy record
lacking a name field proceeds to analysis and can be recorded as a
Success, and the missing name is instead flagged in the results
artifact's scraping_success column as "No". -/
theorem c6_missing_name_amended (e : ItemEnv) (i : Nat) (u : String)
    (r : SuccessRec) :
    (e.goto = .ok () → e.scrape = .ok none →
      (processItem e i u).fst = .failure ⟨u, scrapeFailReason u, i⟩) ∧
    (r.profile_data.name = none → (resultFlags r).scraping_success = "No") := by
  constructor
  · rcases e with ⟨g, s, a⟩
    rintro hg hs
    cases hg
    cases hs
    rfl
  · intro h
    simp [resultFlags, h, optTruthy]

/-- Claim C6 witness: an empty scrape return becomes the expected
Failure record, and a success record without a name is flagged
scraping_success = "No". -/
theorem c6_missing_name_amended_witness :
    (processItem ⟨.ok (), .ok none, .ok none⟩ 1 "u").fst
      = .failure ⟨"u", scrapeFailReason "u", 1⟩ ∧
    (resultFlags ⟨"u", ⟨none, some "Engineer at X", none, [], [], []⟩,
        ⟨some "generated text", none⟩, 1⟩).scraping_success = "No" := by
  have h := c6_missing_name_amended ⟨.ok (), .ok none, .ok none⟩ 1 "u"
    ⟨"u", ⟨none, some "Engineer at X", none, [], [], []⟩,
     ⟨some "generated text", none⟩, 1⟩
  exact ⟨h.1 rfl rfl, h.2 rfl⟩

/-- Claim C7: evaluation of the summary's success-rate line. With 3
successes and 1 failure it renders 75.0% to one decimal place, but with
zero total outcomes the unguarded division
`len(results) / (len(results) + len(errors))` raises ZeroDivisionError
(modelled as `none`): no placeholder is rendered, contradicting the
claim's zero-total requirement. -/
theorem c7_success_rate_eval :
    successRateLine
      [⟨"u1", ⟨some "n", none, none, [], [], []⟩, ⟨some "t", none⟩, 1⟩,
       ⟨"u2", ⟨some "n", none, none, [], [], []⟩, ⟨some "t", none⟩, 2⟩,
       ⟨"u3", ⟨some "n", none, none, [], [], []⟩, ⟨some "t", none⟩, 3⟩]
      [⟨"u4", "err", 4⟩]
      = some "Success Rate: 75.0%" ∧
    successRateLine [] [] = none ∧
    (save_batch_results [] []).summaryRate = none := ⟨rfl, rfl, rfl⟩

/-- Claim C8: the errors artifact is written if and only if at least one
failure record exists, with one row per failure in order, and each row's
error_type comes from a substring match on the reason: reasons
containing "Failed to scrape" classify as scraping_error, all others as
analysis_error. -/
theorem c8_errors_artifact (rs : List SuccessRec) (errs : List ErrorRec)
    (msg : String) :
    ((errorsArtifact errs).isSome = true ↔ errs ≠ []) ∧
    (errs ≠ [] → errorsArtifact errs
        = some (errs.map (fun e => ⟨e.url, e.error, e.index, errorType e.error⟩))) ∧
    (strContains msg "Failed to scrape" = true → errorType msg = "scraping_error") ∧
    (strContains msg "Failed to scrape" = false → errorType msg = "analysis_error") ∧
    (save_batch_results rs errs).errorRows = errorsArtifact errs := by
  refine ⟨?_, ?_, ?_, ?_, rfl⟩
  · cases errs <;> simp [errorsArtifact]
  · intro h
    have he : errs.isEmpty = false := by
      cases errs with
      | nil => exact absurd rfl h
      | cons a t => rfl
    simp [errorsArtifact, he, mkErrorRow]
  · intro h
    simp [errorType, h]
  · intro h
    simp [errorType, h]

/-- Claim C8 witness: a scraping-failure reason is classified
scraping_error, an analysis-failure reason is classified analysis_error,
a singleton failure list produces a one-row artifact, and an empty
failure list produces none. -/
theorem c8_errors_artifact_witness :
    errorsArtifact [⟨"u", "Failed to scrape profile: u", 1⟩]
      = some [⟨"u", "Failed to scrape profile: u", 1, "scraping_error"⟩] ∧
    errorType "Failed to generate analysis for: u" = "analysis_error" ∧
    (errorsArtifact []).isSome = false := by
  have h := c8_errors_artifact [] [⟨"u", "Failed to scrape profile: u", 1⟩]
    "Failed to generate analysis for: u"
  refine ⟨(h.2.1 (by simp)).trans rfl, h.2.2.2.1 (by rfl), ?_⟩
  have h0 := c8_errors_artifact [] ([] : List ErrorRec) ""
  simp at h0
  simp [h0.1]

/-- Claim C9 counterexample: in a run over one identifier whose calls
all succeed, the 2-4 pause occurs after the navigation event, not
before it (the code navigates first and then sleeps to let the page
load), and the 3-6 pause occurs even though the item is the last one —
both contradicting the claim's "before navigating" and "except after
the last item". -/
theorem c9_pacing_counterexample :
    (runBatch true worldOk ["https://linkedin.com/in/x"]).snd
      = [.loginAttempt, .nav "https://linkedin.com/in/x", .delay 2 4,
         .scrapeCall "https://linkedin.com/in/x", .analyzeCall,
         .delay 3 6, .close] ∧
    Event.delay 3 6 ∈ (runBatch true worldOk ["https://linkedin.com/in/x"]).snd := by
  refine ⟨rfl, ?_⟩
  simp [runBatch, batchLoop, processItem, worldOk, okEnv, analysisFalsy, optTruthy]

/-- Claim C9 as amended: for every item the first event is the
navigation; when navigation does not raise, the 2-4 pause follows
immediately after it (a post-navigation page-load wait, not a
pre-navigation pause); and the 3-6 pause occurs exactly on successfully
processed items — including the last one — as the final event of the
item, never after a failed item. -/
theorem c9_pacing_amended (e : ItemEnv) (i : Nat) (u : String) :
    ((processItem e i u).snd)[0]? = some (.nav u) ∧
    (e.goto = .ok () → ((processItem e i u).snd)[1]? = some (.delay 2 4)) ∧
    ((processItem e i u).snd).count (.delay 3 6)
        = (if (processItem e i u).fst.isSuccess then 1 else 0) ∧
    ((processItem e i u).fst.isSuccess = true →
      (processItem e i u).snd.getLast? = some (.delay 3 6)) := by
  rcases e with ⟨g, s, a⟩
  cases g with
  | exn m =>
    refine ⟨rfl, ?_, rfl, ?_⟩
    · intro h
      simp at h
    · intro h
      simp [processItem, Outcome.isSuccess] at h
  | ok v =>
    cases s with
    | exn m =>
      refine ⟨rfl, fun _ => rfl, rfl, ?_⟩
      intro h
      simp [processItem, Outcome.isSuccess] at h
    | ok po =>
      cases po with
      | none =>
        refine ⟨rfl, fun _ => rfl, rfl, ?_⟩
        intro h
        simp [processItem, Outcome.isSuccess] at h
      | some pd =>
        cases a with
        | exn m =>
          refine ⟨rfl, fun _ => rfl, rfl, ?_⟩
          intro h
          simp [processItem, Outcome.isSuccess] at h
        | ok ao =>
          cases hf : analysisFalsy ao with
          | true =>
            have hp : processItem ⟨.ok v, .ok (some pd), .ok ao⟩ i u
                = (.failure ⟨u, analysisFailReason u, i⟩,
                   [.nav u, .delay 2 4, .scrapeCall u, .analyzeCall]) := by
              simp [processItem, hf]
            rw [hp]
            refine ⟨rfl, fun _ => rfl, rfl, ?_⟩
            intro h
            simp [Outcome.isSuccess] at h
          | false =>
            have hp : processItem ⟨.ok v, .ok (some pd), .ok ao⟩ i u
                = (.success ⟨u, pd, ao.getD ⟨none, none⟩, i⟩,
                   [.nav u, .delay 2 4, .scrapeCall u, .analyzeCall, .delay 3 6]) := by
              simp [processItem, hf]
            rw [hp]
            exact ⟨rfl, fun _ => rfl, rfl, fun _ => rfl⟩

/-- Claim C9 witness: a successful item shows navigation first, the
2-4 pause second, and the 3-6 pause as its final event; a failed item
has no 3-6 pause. -/
theorem c9_pacing_amended_witness :
    ((processItem okEnv 1 "u").snd)[0]? = some (.nav "u") ∧
    ((processItem okEnv 1 "u").snd)[1]? = some (.delay 2 4) ∧
    (processItem okEnv 1 "u").snd.getLast? = some (.delay 3 6) ∧
    ((processItem ⟨.ok (), .ok none, .ok none⟩ 1 "u").snd).count (.delay 3 6) = 0 := by
  have h := c9_pacing_amended okEnv 1 "u"
  have h2 := c9_pacing_amended ⟨.ok (), .ok none, .ok none⟩ 1 "u"
  exact ⟨h.1, h.2.1 rfl, h.2.2.2 rfl, h2.2.2.1.trans rfl⟩

/-- Claim C10 counterexample: an exception whose text itself contains
"Failed to scrape" produces the reason
`Error processing {url}: Failed to scrape: browser crashed`, which does
contain the substring, so the errors artifact classifies this
exception-path failure as scraping_error — contradicting the claim that
exception-path failures are always classified analysis_error. -/
theorem c10_exn_classification_counterexample :
    (processItem ⟨.exn "Failed to scrape: browser crashed", .ok none, .ok none⟩
        1 "u").fst
      = .failure ⟨"u", "Error processing u: Failed to scrape: browser crashed", 1⟩ ∧
    errorType "Error processing u: Failed to scrape: browser crashed"
      = "scraping_error" ∧
    (mkErrorRow ⟨"u", "Error processing u: Failed to scrape: browser crashed", 1⟩).error_type
      = "scraping_error" := ⟨rfl, rfl, rfl⟩

/-- Claim C10 as amended: every per-item exception (navigation,
extraction, or summarization) is recorded with reason
`Error processing {url}: {message}`; such a failure is classified
analysis_error whenever that reason does not contain "Failed to scrape"
(in particular whenever neither the URL nor the exception text contains
it), but a reason that does contain it — because the URL or the
exception text does — is classified scraping_error; the empty-record
extraction path always yields `Failed to scrape profile: {url}`, which
is always classified scraping_error. -/
theorem c10_exn_classification_amended (e : ItemEnv) (i : Nat)
    (u msg : String) (pd : ProfileData) :
    (e.goto = .exn msg →
      (processItem e i u).fst = .failure ⟨u, exnReason u msg, i⟩) ∧
    (e.goto = .ok () → e.scrape = .exn msg →
      (processItem e i u).fst = .failure ⟨u, exnReason u msg, i⟩) ∧
    (e.goto = .ok () → e.scrape = .ok (some pd) → e.analyze = .exn msg →
      (processItem e i u).fst = .failure ⟨u, exnReason u msg, i⟩) ∧
    (strContains (exnReason u msg) "Failed to scrape" = false →
      errorType (exnReason u msg) = "analysis_error") ∧
    (strContains (exnReason u msg) "Failed to scrape" = true →
      errorType (exnReason u msg) = "scraping_error") ∧
    errorType (scrapeFailReason u) = "scraping_error" := by
  rcases e with ⟨g, s, a⟩
  refine ⟨?_, ?_, ?_, ?_, ?_, ?_⟩
  · rintro hg; cases hg; rfl
  · rintro hg hs; cases hg; cases hs; rfl
  · rintro hg hs ha; cases hg; cases hs; cases ha; rfl
  · intro h; simp [errorType, h]
  · intro h; simp [errorType, h]
  · have hpre : ("Failed to scrape".data).isPrefixOf
        ("Failed to scrape profile: ".data ++ u.data) = true := by
      rw [List.isPrefixOf_iff_prefix]
      exact List.IsPrefix.trans (by decide)
        (List.prefix_append "Failed to scrape profile: ".data u.data)
    have hc : strContains (scrapeFailReason u) "Failed to scrape" = true := by
      unfold strContains scrapeFailReason
      rw [String.data_append]
      exact charsContain_of_isPrefixOf _ _ hpre
    simp [errorType, hc]

/-- Claim C10 witness: a navigation exception with a neutral message is
recorded with the `Error processing` reason and classified
analysis_error, while the empty-record path's reason is classified
scraping_error. -/
theorem c10_exn_classification_amended_witness :
    (processItem ⟨.exn "timeout", .ok none, .ok none⟩ 1 "x").fst
      = .failure ⟨"x", exnReason "x" "timeout", 1⟩ ∧
    errorType (exnReason "x" "timeout") = "analysis_error" ∧
    errorType (scrapeFailReason "x") = "scraping_error" := by
  have h := c10_exn_classification_amended ⟨.exn "timeout", .ok none, .ok none⟩
    1 "x" "timeout" ⟨none, none, none, [], [], []⟩
  exact ⟨h.1 rfl, h.2.2.2.1 (by rfl), h.2.2.2.2.2⟩

end LinkedInBatch
